import Mathlib

/-!
Verification of `homeassistant/components/tractive/sensor.py`.

The module defines sensor entities for the Tractive pet-tracker integration:
a static table `SENSOR_TYPES` of entity descriptions, a `TractiveSensor`
entity class that projects one key of an incoming event dict into entity
state, and `async_setup_entry`, which builds the cross product of
descriptions and trackables.

Python dicts are modelled as association lists with `Option`-valued lookup;
a `none` result models a raised `KeyError` propagating out of the function
(Python indexing `d[k]`).  State values (`StateType`) are modelled by the
inductive `StateValue`.
-/

/-- A Home Assistant `StateType` value: a string, an integer, or `None`.
(Floats are omitted; no claim distinguishes them from integers.) -/
inductive StateValue where
  | str : String → StateValue
  | int : Int → StateValue
  | null : StateValue
deriving DecidableEq, Repr

/-- Whether a `StateValue` is a string, modelling `isinstance(state, str)`. -/
def StateValue.isStr : StateValue → Bool
  | StateValue.str _ => true
  | _ => false

/-- Python dict indexing `d[k]` on an association list: `some` the first value
bound to `k`, or `none` (a `KeyError`) when `k` is absent. -/
def dictGet {α : Type} (d : List (String × α)) (k : String) : Option α :=
  (d.find? (fun p => p.fst == k)).map Prod.snd

/-- Modelled from the spec: `TRACKER_HARDWARE_STATUS_UPDATED` from
`tractive/const.py` (not included in the sources), the dispatch-signal name
prefix for whole-hardware status updates. -/
def TRACKER_HARDWARE_STATUS_UPDATED : String :=
  "tractive_tracker_hardware_status_updated"

/-- Modelled from the spec: `TRACKER_ACTIVITY_STATUS_UPDATED` from
`tractive/const.py` (not included in the sources), the dispatch-signal name
prefix for per-trackable activity status updates. -/
def TRACKER_ACTIVITY_STATUS_UPDATED : String :=
  "tractive_tracker_activity_status_updated"

/-- Modelled from the spec: `TRACKER_WELLNESS_STATUS_UPDATED` from
`tractive/const.py` (not included in the sources), the dispatch-signal name
prefix for per-trackable wellness status updates. -/
def TRACKER_WELLNESS_STATUS_UPDATED : String :=
  "tractive_tracker_wellness_status_updated"

/-- Modelled from the spec: `ATTR_BATTERY_LEVEL` from `homeassistant.const`;
the spec's worked example fixes its value to the event key "battery_level". -/
def ATTR_BATTERY_LEVEL : String := "battery_level"

/-- Modelled from the spec: `ATTR_TRACKER_STATE` from `tractive/const.py`
(not included in the sources), the tracker operational-state field. -/
def ATTR_TRACKER_STATE : String := "tracker_state"

/-- Modelled from the spec: `ATTR_MINUTES_ACTIVE` from `tractive/const.py`
(not included in the sources), the active-minutes field. -/
def ATTR_MINUTES_ACTIVE : String := "minutes_active"

/-- Modelled from the spec: `ATTR_MINUTES_REST` from `tractive/const.py`
(not included in the sources), the rest-minutes field. -/
def ATTR_MINUTES_REST : String := "minutes_rest"

/-- Modelled from the spec: `ATTR_CALORIES` from `tractive/const.py`
(not included in the sources), the calorie-burn field. -/
def ATTR_CALORIES : String := "calories"

/-- Modelled from the spec: `ATTR_DAILY_GOAL` from `tractive/const.py`
(not included in the sources), the daily goal minutes field. -/
def ATTR_DAILY_GOAL : String := "daily_goal"

/-- Modelled from the spec: `ATTR_MINUTES_DAY_SLEEP` from `tractive/const.py`
(not included in the sources), the day-sleep minutes field. -/
def ATTR_MINUTES_DAY_SLEEP : String := "minutes_day_sleep"

/-- Modelled from the spec: `ATTR_MINUTES_NIGHT_SLEEP` from
`tractive/const.py` (not included in the sources), the night-sleep minutes
field. -/
def ATTR_MINUTES_NIGHT_SLEEP : String := "minutes_night_sleep"

/-- Modelled from the spec: `ATTR_SLEEP_LABEL` from `tractive/const.py`
(not included in the sources), the sleep-quality label field. -/
def ATTR_SLEEP_LABEL : String := "sleep_label"

/-- Modelled from the spec: `ATTR_ACTIVITY_LABEL` from `tractive/const.py`
(not included in the sources), the activity-quality label field. -/
def ATTR_ACTIVITY_LABEL : String := "activity_label"

/-- The `PERCENTAGE` constant from `homeassistant.const`. -/
def PERCENTAGE : String := "%"

/-- Python `str.lower()`, modelled character-wise on the string's data. -/
def strLower (s : String) : String := String.mk (s.data.map Char.toLower)

/-- Model of `TractiveSensorEntityDescription`: `SensorEntityDescription` plus the
`TractiveRequiredKeysMixin` field ` signal_prefix` and the two fields declared
in the dataclass, with their dataclass defaults.  Display metadata enums
(`SensorDeviceClass`, `EntityCategory`, `SensorStateClass`) are modelled as
their string values. -/
structure TractiveSensorEntityDescription where
  key : String
  translation_key : Option String := none
  native_unit_of_measurement : Option String := none
  device_class : Option String := none
  state_class : Option String := none
  entity_category : Option String := none
  icon : Option String := none
  options : Option (List String) := none
  signal_prefix : String
  hardware_sensor : Bool := false
  value_fn : StateValue → StateValue := fun state => state

/-- Modelled from the spec: the `Trackables` record supplied by the
integration package `__init__.py` (not included in the sources) carries a
trackable profile dict and a tracker-hardware details dict; this module reads
the "_id" field of each. -/
structure Trackables where
  trackable : List (String × String)
  tracker_details : List (String × String)

/-- The mutable entity state of a `TractiveSensor` instance: the computed
dispatcher signal, the unique id, the availability flag and the last
projected native value, plus its entity description. -/
structure TractiveSensor where
  dispatcher_signal : String
  attr_unique_id : String
  attr_available : Bool
  entity_description : TractiveSensorEntityDescription
  attr_native_value : Option StateValue := none

/-- Modelled from the spec: the base class handler
`TractiveEntity.handle_status_update` (in `tractive/entity.py`, not included
in the sources) performs the shared post-update bookkeeping, marking the
entity available and scheduling a UI refresh. -/
def TractiveEntity.handle_status_update (self : TractiveSensor) : TractiveSensor :=
  { self with attr_available := true }

/-- Model of `TractiveSensor.__init__`: computes the dispatcher signal from the
description's ` signal_prefix` and the identifier selected by
`hardware_sensor` (`item.tracker_details["_id"]` when true, otherwise
`item.trackable["_id"]`), sets the unique id to
`item.trackable["_id"] ++ "_" ++ description.key`, and starts unavailable.
A missing "_id" key raises (`none`). -/
def TractiveSensor.init (item : Trackables)
    (description : TractiveSensorEntityDescription) : Option TractiveSensor :=
  match (if description.hardware_sensor then dictGet item.tracker_details "_id"
         else dictGet item.trackable "_id"),
        dictGet item.trackable "_id" with
  | some sid, some tid =>
      some { dispatcher_signal := description.signal_prefix ++ "-" ++ sid,
             attr_unique_id := tid ++ "_" ++ description.key,
             attr_available := false,
             entity_description := description }
  | _, _ => none

/-- Model of `TractiveSensor.handle_status_update`: stores
`value_fn (event[key])` as the native value, then performs the base class
bookkeeping.  A missing key raises (`none`). -/
def TractiveSensor.handle_status_update (self : TractiveSensor)
    (event : List (String × StateValue)) : Option TractiveSensor :=
  match dictGet event self.entity_description.key with
  | some v =>
      some (TractiveEntity.handle_status_update
        { self with attr_native_value := some (self.entity_description.value_fn v) })
  | none => none

def battery_level_description : TractiveSensorEntityDescription :=
  { key := ATTR_BATTERY_LEVEL,
    translation_key := some "tracker_battery_level",
    native_unit_of_measurement := some PERCENTAGE,
    device_class := some "battery",
    signal_prefix := TRACKER_HARDWARE_STATUS_UPDATED,
    hardware_sensor := true,
    entity_category := some "diagnostic" }

def tracker_state_description : TractiveSensorEntityDescription :=
  { key := ATTR_TRACKER_STATE,
    translation_key := some "tracker_state",
    signal_prefix := TRACKER_HARDWARE_STATUS_UPDATED,
    hardware_sensor := true,
    icon := some "mdi:radar",
    entity_category := some "diagnostic",
    device_class := some "enum",
    options := some ["not_reporting", "operational", "system_shutdown_user",
      "system_startup"] }

def minutes_active_description : TractiveSensorEntityDescription :=
  { key := ATTR_MINUTES_ACTIVE,
    translation_key := some "activity_time",
    icon := some "mdi:clock-time-eight-outline",
    native_unit_of_measurement := some "min",
    signal_prefix := TRACKER_ACTIVITY_STATUS_UPDATED,
    state_class := some "total" }

def minutes_rest_description : TractiveSensorEntityDescription :=
  { key := ATTR_MINUTES_REST,
    translation_key := some "rest_time",
    icon := some "mdi:clock-time-eight-outline",
    native_unit_of_measurement := some "min",
    signal_prefix := TRACKER_WELLNESS_STATUS_UPDATED,
    state_class := some "total" }

def calories_description : TractiveSensorEntityDescription :=
  { key := ATTR_CALORIES,
    translation_key := some "calories",
    icon := some "mdi:fire",
    native_unit_of_measurement := some "kcal",
    signal_prefix := TRACKER_WELLNESS_STATUS_UPDATED,
    state_class := some "total" }

def daily_goal_description : TractiveSensorEntityDescription :=
  { key := ATTR_DAILY_GOAL,
    translation_key := some "daily_goal",
    icon := some "mdi:flag-checkered",
    native_unit_of_measurement := some "min",
    signal_prefix := TRACKER_ACTIVITY_STATUS_UPDATED }

def minutes_day_sleep_description : TractiveSensorEntityDescription :=
  { key := ATTR_MINUTES_DAY_SLEEP,
    translation_key := some "minutes_day_sleep",
    icon := some "mdi:sleep",
    native_unit_of_measurement := some "min",
    signal_prefix := TRACKER_WELLNESS_STATUS_UPDATED,
    state_class := some "total" }

def minutes_night_sleep_description : TractiveSensorEntityDescription :=
  { key := ATTR_MINUTES_NIGHT_SLEEP,
    translation_key := some "minutes_night_sleep",
    icon := some "mdi:sleep",
    native_unit_of_measurement := some "min",
    signal_prefix := TRACKER_WELLNESS_STATUS_UPDATED,
    state_class := some "total" }

def sleep_label_description : TractiveSensorEntityDescription :=
  { key := ATTR_SLEEP_LABEL,
    translation_key := some "sleep",
    icon := some "mdi:sleep",
    signal_prefix := TRACKER_WELLNESS_STATUS_UPDATED,
    value_fn := fun state => match state with
      | StateValue.str s => StateValue.str (strLower s)
      | v => v,
    device_class := some "enum",
    options := some ["ok", "good"] }

def activity_label_description : TractiveSensorEntityDescription :=
  { key := ATTR_ACTIVITY_LABEL,
    translation_key := some "activity",
    icon := some "mdi:run",
    signal_prefix := TRACKER_WELLNESS_STATUS_UPDATED,
    value_fn := fun state => match state with
      | StateValue.str s => StateValue.str (strLower s)
      | v => v,
    device_class := some "enum",
    options := some ["ok", "good"] }

/-- The `SENSOR_TYPES` table: the static description table, in source order. -/
def SENSOR_TYPES : List TractiveSensorEntityDescription :=
  [battery_level_description, tracker_state_description,
   minutes_active_description, minutes_rest_description,
   calories_description, daily_goal_description,
   minutes_day_sleep_description, minutes_night_sleep_description,
   sleep_label_description, activity_label_description]

/-- Sequencing of a Python list comprehension whose element construction can
raise: build each element left to right, propagating the first failure. -/
def optionMapList {α β : Type} (f : α → Option β) : List α → Option (List β)
  | [] => some []
  | a :: as =>
    match f a, optionMapList f as with
    | some b, some bs => some (b :: bs)
    | _, _ => none

/-- Model of `async_setup_entry`: builds
`[TractiveSensor(client, item, description) for description in SENSOR_TYPES
for item in trackables]` and passes the list to `async_add_entities`; the
returned list is the argument of that call. -/
def async_setup_entry (trackables : List Trackables) :
    Option (List TractiveSensor) :=
  optionMapList (fun p => TractiveSensor.init p.snd p.fst)
    (SENSOR_TYPES.flatMap (fun description =>
      trackables.map (fun item => (description, item))))

/-- An item whose dicts both carry the "_id" field, as the external client
guarantees for well-formed trackables. -/
def Trackables.wellFormed (item : Trackables) : Prop :=
  (dictGet item.trackable "_id").isSome ∧
    (dictGet item.tracker_details "_id").isSome

/-- A concrete well-formed trackable item used by witnesses. -/
def demoItem : Trackables :=
  { trackable := [("_id", "pet1")], tracker_details := [("_id", "hw1")] }

/-- The sensor constructed from `demoItem` and the battery description. -/
def demoBatterySensor : TractiveSensor :=
  { dispatcher_signal := TRACKER_HARDWARE_STATUS_UPDATED ++ "-" ++ "hw1",
    attr_unique_id := "pet1" ++ "_" ++ ATTR_BATTERY_LEVEL,
    attr_available := false,
    entity_description := battery_level_description }

/-- The sensor constructed from `demoItem` and the sleep-label description. -/
def demoSleepSensor : TractiveSensor :=
  { dispatcher_signal := TRACKER_WELLNESS_STATUS_UPDATED ++ "-" ++ "pet1",
    attr_unique_id := "pet1" ++ "_" ++ ATTR_SLEEP_LABEL,
    attr_available := false,
    entity_description := sleep_label_description }

/-- An item whose dicts lack the "_id" field. -/
def emptyItem : Trackables := { trackable := [], tracker_details := [] }

theorem demo_init_battery : TractiveSensor.init demoItem
    battery_level_description = some demoBatterySensor := rfl

theorem demo_init_sleep : TractiveSensor.init demoItem
    sleep_label_description = some demoSleepSensor := rfl

/-- Characterization of a successful `TractiveSensor.__init__`. -/
theorem init_eq_some (item : Trackables) (d : TractiveSensorEntityDescription)
    (s : TractiveSensor) :
    TractiveSensor.init item d = some s ↔
      ∃ sid tid,
        (if d.hardware_sensor then dictGet item.tracker_details "_id"
         else dictGet item.trackable "_id") = some sid ∧
        dictGet item.trackable "_id" = some tid ∧
        s = { dispatcher_signal := d.signal_prefix ++ "-" ++ sid,
              attr_unique_id := tid ++ "_" ++ d.key,
              attr_available := false,
              entity_description := d } := by
  unfold TractiveSensor.init
  constructor
  · intro h
    split at h
    next sid tid hsid htid =>
      exact ⟨sid, tid, hsid, htid, (Option.some.inj h).symm⟩
    next => exact absurd h (by simp)
  · rintro ⟨sid, tid, hsid, htid, rfl⟩
    rw [hsid, htid]

/-- Characterization of a successful `handle_status_update`. -/
theorem handle_eq_some (self : TractiveSensor)
    (event : List (String × StateValue)) (s2 : TractiveSensor) :
    TractiveSensor.handle_status_update self event = some s2 ↔
      ∃ v, dictGet event self.entity_description.key = some v ∧
        s2 = { self with
                attr_native_value := some (self.entity_description.value_fn v),
                attr_available := true } := by
  unfold TractiveSensor.handle_status_update TractiveEntity.handle_status_update
  constructor
  · intro h
    split at h
    next v hv => exact ⟨v, hv, (Option.some.inj h).symm⟩
    next => exact absurd h (by simp)
  · rintro ⟨v, hv, rfl⟩
    rw [hv]

/-- Claim C1: the dispatch signal computed at construction is the
description's signal prefix, a hyphen, and the tracker-hardware id when
`hardware_sensor` is true, otherwise the trackable id; and it is
deterministic in (signal prefix, hardware flag, identifiers). -/
theorem dispatch_signal_spec :
    (∀ item d s, TractiveSensor.init item d = some s →
      (d.hardware_sensor = true →
        ∃ hid, dictGet item.tracker_details "_id" = some hid ∧
          s.dispatcher_signal = d.signal_prefix ++ "-" ++ hid) ∧
      (d.hardware_sensor = false →
        ∃ tid, dictGet item.trackable "_id" = some tid ∧
          s.dispatcher_signal = d.signal_prefix ++ "-" ++ tid)) ∧
    (∀ item1 item2 d1 d2 s1 s2,
      TractiveSensor.init item1 d1 = some s1 →
      TractiveSensor.init item2 d2 = some s2 →
      d1.signal_prefix = d2.signal_prefix →
      d1.hardware_sensor = d2.hardware_sensor →
      dictGet item1.tracker_details "_id" = dictGet item2.tracker_details "_id" →
      dictGet item1.trackable "_id" = dictGet item2.trackable "_id" →
      s1.dispatcher_signal = s2.dispatcher_signal) := by
  constructor
  · intro item d s h
    obtain ⟨sid, tid, hsid, htid, rfl⟩ := (init_eq_some _ _ _).1 h
    constructor
    · intro hh
      rw [hh] at hsid
      simp only [if_true] at hsid
      exact ⟨sid, hsid, rfl⟩
    · intro hh
      rw [hh] at hsid
      simp only [Bool.false_eq_true, if_false] at hsid
      exact ⟨sid, hsid, rfl⟩
  · intro item1 item2 d1 d2 s1 s2 h1 h2 hsp hhw hhd htd
    obtain ⟨sid1, tid1, hsid1, htid1, rfl⟩ := (init_eq_some _ _ _).1 h1
    obtain ⟨sid2, tid2, hsid2, htid2, rfl⟩ := (init_eq_some _ _ _).1 h2
    rw [hhw, hhd, htd, hsid2] at hsid1
    cases Option.some.inj hsid1
    rw [hsp]

/-- Witness for C1 at the battery description and `demoItem`. -/
theorem dispatch_signal_spec_witness :
    demoBatterySensor.dispatcher_signal =
      battery_level_description.signal_prefix ++ "-" ++ "hw1" := by
  obtain ⟨hid, hh, hs⟩ :=
    (dispatch_signal_spec.1 demoItem battery_level_description
      demoBatterySensor rfl).1 rfl
  have hv : some "hw1" = some hid := hh
  injection hv with hv2
  rw [← hv2] at hs
  exact hs

/-- Claim C4: for the two label descriptions, `handle_status_update` stores a
string event value lower-cased and any non-string value unchanged. -/
theorem label_value_lowercased (d : TractiveSensorEntityDescription)
    (hd : d = sleep_label_description ∨ d = activity_label_description)
    (self : TractiveSensor) (event : List (String × StateValue))
    (hsd : self.entity_description = d) :
    (∀ str, dictGet event d.key = some (StateValue.str str) →
      ∃ s2, TractiveSensor.handle_status_update self event = some s2 ∧
        s2.attr_native_value = some (StateValue.str (strLower str))) ∧
    (∀ v, dictGet event d.key = some v → v.isStr = false →
      ∃ s2, TractiveSensor.handle_status_update self event = some s2 ∧
        s2.attr_native_value = some v) := by
  have hfn : ∀ v, d.value_fn v =
      match v with
      | StateValue.str s => StateValue.str (strLower s)
      | v => v := by
    rcases hd with rfl | rfl <;> intro v <;> rfl
  constructor
  · intro str hv
    refine ⟨_, (handle_eq_some _ _ _).2 ⟨_, by rw [hsd]; exact hv, rfl⟩, ?_⟩
    simp only [hsd, hfn]
  · intro v hv hns
    refine ⟨_, (handle_eq_some _ _ _).2 ⟨_, by rw [hsd]; exact hv, rfl⟩, ?_⟩
    cases v with
    | str s => simp [StateValue.isStr] at hns
    | int n => simp only [hsd, hfn]
    | null => simp only [hsd, hfn]

/-- Witness for C4: a mixed-case sleep label is stored lower-cased, and a
non-string value passes through unchanged. -/
theorem label_value_lowercased_witness :
    (∃ s2, TractiveSensor.handle_status_update demoSleepSensor
        [(ATTR_SLEEP_LABEL, StateValue.str "GOOD")] = some s2 ∧
      s2.attr_native_value = some (StateValue.str "good")) ∧
    ∃ s2, TractiveSensor.handle_status_update demoSleepSensor
        [(ATTR_SLEEP_LABEL, StateValue.int 5)] = some s2 ∧
      s2.attr_native_value = some (StateValue.int 5) :=
  ⟨(label_value_lowercased sleep_label_description (Or.inl rfl)
      demoSleepSensor [(ATTR_SLEEP_LABEL, StateValue.str "GOOD")] rfl).1
      "GOOD" rfl,
   (label_value_lowercased sleep_label_description (Or.inl rfl)
      demoSleepSensor [(ATTR_SLEEP_LABEL, StateValue.int 5)] rfl).2
      (StateValue.int 5) rfl rfl⟩

/-- Claim C5 (amended): `SENSOR_TYPES` enumerates ten descriptors covering
battery level, tracker state, active minutes, rest minutes, calories, daily
goal, day sleep, night sleep, sleep label and activity label. -/
theorem sensor_types_enumeration :
    SENSOR_TYPES.length = 10 ∧
      SENSOR_TYPES.map (fun d => d.key) =
        [ATTR_BATTERY_LEVEL, ATTR_TRACKER_STATE, ATTR_MINUTES_ACTIVE,
         ATTR_MINUTES_REST, ATTR_CALORIES, ATTR_DAILY_GOAL,
         ATTR_MINUTES_DAY_SLEEP, ATTR_MINUTES_NIGHT_SLEEP,
         ATTR_SLEEP_LABEL, ATTR_ACTIVITY_LABEL] :=
  ⟨rfl, rfl⟩

/-- Counterexample to C5 as stated: the table does not have nine entries. -/
theorem sensor_types_not_nine : ¬ SENSOR_TYPES.length = 9 := by decide

/-- Claim C6: availability is false at construction and true immediately
after `handle_status_update` processes an event. -/
theorem availability_lifecycle :
    (∀ item d s, TractiveSensor.init item d = some s →
      s.attr_available = false) ∧
    (∀ self event s2, TractiveSensor.handle_status_update self event = some s2 →
      s2.attr_available = true) := by
  constructor
  · intro item d s h
    obtain ⟨sid, tid, hsid, htid, rfl⟩ := (init_eq_some _ _ _).1 h
    rfl
  · intro self event s2 h
    obtain ⟨v, hv, rfl⟩ := (handle_eq_some _ _ _).1 h
    rfl

/-- Witness for C6 at the battery sensor built from `demoItem`. -/
theorem availability_lifecycle_witness :
    demoBatterySensor.attr_available = false :=
  availability_lifecycle.1 demoItem battery_level_description
    demoBatterySensor rfl

/-- Claim C7: the battery sensor subscribes to the hardware signal and the
event with battery level 42 sets state 42 and availability true. -/
theorem battery_event_example :
    demoBatterySensor.dispatcher_signal =
        TRACKER_HARDWARE_STATUS_UPDATED ++ "-" ++ "hw1" ∧
    TractiveSensor.handle_status_update demoBatterySensor
        [("battery_level", StateValue.int 42)] =
      some { demoBatterySensor with
              attr_native_value := some (StateValue.int 42),
              attr_available := true } :=
  ⟨rfl, rfl⟩

/-- Claim C8: a missing descriptor key in an event makes
`handle_status_update` raise, and a missing "_id" in the dict selected by
`hardware_sensor` makes construction raise. -/
theorem missing_key_lookup_failure :
    (∀ self event, dictGet event self.entity_description.key = none →
      TractiveSensor.handle_status_update self event = none) ∧
    (∀ item d, d.hardware_sensor = true →
      dictGet item.tracker_details "_id" = none →
      TractiveSensor.init item d = none) ∧
    (∀ item d, d.hardware_sensor = false →
      dictGet item.trackable "_id" = none →
      TractiveSensor.init item d = none) := by
  refine ⟨?_, ?_, ?_⟩
  · intro self event h
    unfold TractiveSensor.handle_status_update
    rw [h]
  · intro item d hd h
    unfold TractiveSensor.init
    rw [hd, h]
    simp
  · intro item d hd h
    unfold TractiveSensor.init
    rw [hd, h]
    simp

/-- Witness for C8 on an empty event and an item with empty dicts. -/
theorem missing_key_lookup_failure_witness :
    TractiveSensor.handle_status_update demoBatterySensor [] = none ∧
    TractiveSensor.init emptyItem battery_level_description = none ∧
    TractiveSensor.init emptyItem minutes_active_description = none :=
  ⟨missing_key_lookup_failure.1 demoBatterySensor [] rfl,
   missing_key_lookup_failure.2.1 emptyItem battery_level_description rfl rfl,
   missing_key_lookup_failure.2.2 emptyItem minutes_active_description rfl rfl⟩

/-- The eight descriptions that are not the two label descriptions. -/
def nonLabelDescriptions : List TractiveSensorEntityDescription :=
  [battery_level_description, tracker_state_description,
   minutes_active_description, minutes_rest_description,
   calories_description, daily_goal_description,
   minutes_day_sleep_description, minutes_night_sleep_description]

/-- Claim C9: every description other than the two label ones has the
identity value transform, so `handle_status_update` stores the event value
unchanged. -/
theorem non_label_value_fn_identity (d : TractiveSensorEntityDescription)
    (hd : d ∈ nonLabelDescriptions) :
    (∀ v, d.value_fn v = v) ∧
    ∀ self event v, self.entity_description = d →
      dictGet event d.key = some v →
      ∃ s2, TractiveSensor.handle_status_update self event = some s2 ∧
        s2.attr_native_value = some v := by
  have hid : ∀ v, d.value_fn v = v := by
    fin_cases hd <;> intro v <;> rfl
  refine ⟨hid, ?_⟩
  intro self event v hsd hv
  refine ⟨_, (handle_eq_some _ _ _).2 ⟨_, by rw [hsd]; exact hv, rfl⟩, ?_⟩
  simp only [hsd, hid]

/-- Witness for C9 at the battery description. -/
theorem non_label_value_fn_identity_witness :
    battery_level_description.value_fn (StateValue.str "OK") =
      StateValue.str "OK" :=
  (non_label_value_fn_identity battery_level_description
    (List.Mem.head _)).1 (StateValue.str "OK")

theorem optionMapList_length {α β : Type} (f : α → Option β) :
    ∀ (l : List α) (r : List β), optionMapList f l = some r →
      r.length = l.length := by
  intro l
  induction l with
  | nil =>
    intro r h
    simp only [optionMapList] at h
    cases h
    rfl
  | cons a as ih =>
    intro r h
    simp only [optionMapList] at h
    split at h
    next b bs hb hbs =>
      cases h
      simp [ih bs hbs]
    next => exact absurd h (by simp)

theorem optionMapList_isSome {α β : Type} (f : α → Option β) :
    ∀ (l : List α), (∀ a ∈ l, (f a).isSome) →
      ∃ r, optionMapList f l = some r := by
  intro l
  induction l with
  | nil => intro _; exact ⟨[], rfl⟩
  | cons a as ih =>
    intro h
    obtain ⟨b, hb⟩ := Option.isSome_iff_exists.1 (h a (List.mem_cons_self a as))
    obtain ⟨bs, hbs⟩ := ih (fun x hx => h x (List.mem_cons_of_mem a hx))
    refine ⟨b :: bs, ?_⟩
    simp only [optionMapList]
    rw [hb, hbs]

theorem optionMapList_getElem {α β : Type} (f : α → Option β) :
    ∀ (l : List α) (r : List β), optionMapList f l = some r →
      ∀ k : Nat, r[k]? = (l[k]?).bind f := by
  intro l
  induction l with
  | nil =>
    intro r h k
    simp only [optionMapList] at h
    cases h
    simp
  | cons a as ih =>
    intro r h k
    simp only [optionMapList] at h
    split at h
    next b bs hb hbs =>
      cases h
      cases k with
      | zero => simpa using hb.symm
      | succ k2 => simpa using ih bs hbs k2
    next => exact absurd h (by simp)

theorem pair_product_length {α β : Type} (ds : List α) (ts : List β) :
    (ds.flatMap (fun d => ts.map (fun t => (d, t)))).length =
      ds.length * ts.length := by
  induction ds with
  | nil => simp
  | cons d ds2 ih =>
    simp only [List.flatMap_cons, List.length_append, List.length_map, ih,
      List.length_cons, Nat.succ_mul]
    omega

theorem pair_product_getElem {α β : Type} (ds : List α) (ts : List β) :
    ∀ (i j : Nat) (hi : i < ds.length) (hj : j < ts.length),
      (ds.flatMap (fun d => ts.map (fun t => (d, t))))[i * ts.length + j]? =
        some (ds.get ⟨i, hi⟩, ts.get ⟨j, hj⟩) := by
  induction ds with
  | nil => intro i j hi hj; simp at hi
  | cons d ds2 ih =>
    intro i j hi hj
    cases i with
    | zero =>
      simp only [List.flatMap_cons, Nat.zero_mul, Nat.zero_add]
      rw [List.getElem?_append_left (by simpa using hj)]
      simp [List.getElem?_eq_getElem hj]
    | succ i2 =>
      simp only [List.flatMap_cons]
      have hge : (ts.map (fun t => (d, t))).length ≤ (i2 + 1) * ts.length + j := by
        simp only [List.length_map, Nat.succ_mul]
        omega
      rw [List.getElem?_append_right hge]
      have hidx : (i2 + 1) * ts.length + j -
          (ts.map (fun t => (d, t))).length = i2 * ts.length + j := by
        simp only [List.length_map, Nat.succ_mul]
        omega
      rw [hidx]
      exact ih i2 j (Nat.lt_of_succ_lt_succ hi) hj

theorem init_isSome (item : Trackables) (d : TractiveSensorEntityDescription)
    (h : item.wellFormed) : (TractiveSensor.init item d).isSome := by
  obtain ⟨h1, h2⟩ := h
  obtain ⟨tid, htid⟩ := Option.isSome_iff_exists.1 h1
  obtain ⟨hid, hhid⟩ := Option.isSome_iff_exists.1 h2
  unfold TractiveSensor.init
  cases hhw : d.hardware_sensor <;> simp [hhw, htid, hhid]

theorem setup_getElem (trackables : List Trackables)
    (es : List TractiveSensor) (hes : async_setup_entry trackables = some es)
    (i j : Nat) (hi : i < SENSOR_TYPES.length) (hj : j < trackables.length) :
    es[i * trackables.length + j]? =
      TractiveSensor.init (trackables.get ⟨j, hj⟩) (SENSOR_TYPES.get ⟨i, hi⟩) := by
  unfold async_setup_entry at hes
  rw [optionMapList_getElem _ _ _ hes, pair_product_getElem _ _ i j hi hj]
  rfl

/-- Claim C2: with M trackables, setup builds exactly
`SENSOR_TYPES.length * M` sensor instances, one per (description, trackable)
pair, and that whole list is what is handed to `async_add_entities`. -/
theorem setup_cross_product_count (trackables : List Trackables)
    (h : ∀ item ∈ trackables, item.wellFormed) :
    ∃ es, async_setup_entry trackables = some es ∧
      es.length = SENSOR_TYPES.length * trackables.length := by
  have hall : ∀ p ∈ SENSOR_TYPES.flatMap (fun description =>
      trackables.map (fun item => (description, item))),
      (TractiveSensor.init (Prod.snd p) (Prod.fst p)).isSome := by
    intro p hp
    rw [List.mem_flatMap] at hp
    obtain ⟨d, hd, hp2⟩ := hp
    rw [List.mem_map] at hp2
    obtain ⟨item, hitem, rfl⟩ := hp2
    exact init_isSome item d (h item hitem)
  obtain ⟨es, hes⟩ := optionMapList_isSome _ _ hall
  refine ⟨es, hes, ?_⟩
  rw [optionMapList_length _ _ _ hes, pair_product_length]

/-- Witness for C2 with the single well-formed trackable `demoItem`. -/
theorem setup_cross_product_count_witness :
    ∃ es, async_setup_entry [demoItem] = some es ∧
      es.length = SENSOR_TYPES.length * [demoItem].length :=
  setup_cross_product_count [demoItem] (by
    intro item hitem
    rw [List.mem_singleton] at hitem
    subst hitem
    exact ⟨rfl, rfl⟩)

/-- Claim C10: setup's entity list is descriptor-major: the entity at index
`i * M + j` is the one constructed from description `i` of `SENSOR_TYPES`
and trackable `j`. -/
theorem setup_descriptor_major_order (trackables : List Trackables)
    (es : List TractiveSensor) (hes : async_setup_entry trackables = some es)
    (i j : Nat) (hi : i < SENSOR_TYPES.length) (hj : j < trackables.length) :
    es[i * trackables.length + j]? =
      TractiveSensor.init (trackables.get ⟨j, hj⟩) (SENSOR_TYPES.get ⟨i, hi⟩) :=
  setup_getElem trackables es hes i j hi hj

/-- Witness for C10: with one trackable, the entity at index `1 * 1 + 0` is
built from description 1 (tracker state) and `demoItem`. -/
theorem setup_descriptor_major_order_witness :
    ((async_setup_entry [demoItem]).getD [])[1 * [demoItem].length + 0]? =
      TractiveSensor.init demoItem tracker_state_description :=
  setup_descriptor_major_order [demoItem]
    ((async_setup_entry [demoItem]).getD []) rfl 1 0 (by decide) (by decide)

theorem string_data_inj {s t : String} (h : s.data = t.data) : s = t := by
  cases s
  cases t
  exact congrArg String.mk (by simpa using h)

theorem drop_suffix_drop {α : Type} (l : List α) (m n : Nat) (h2 : n ≤ m) :
    l.drop m <:+ l.drop n := by
  have h3 : l.drop m = (l.drop n).drop (m - n) := by
    rw [List.drop_drop]
    congr 1
    omega
  rw [h3]
  exact List.drop_suffix _ _

theorem suffix_total_of_append_eq {α : Type} (a b x y : List α)
    (h : a ++ x = b ++ y) : x <:+ y ∨ y <:+ x := by
  rcases Nat.le_total a.length b.length with hle | hle
  · right
    have h4 := drop_suffix_drop (b ++ y) b.length a.length hle
    rw [List.drop_left] at h4
    rw [← h] at h4
    rw [List.drop_left] at h4
    exact h4
  · left
    have h4 := drop_suffix_drop (a ++ x) a.length b.length hle
    rw [List.drop_left] at h4
    rw [h] at h4
    rw [List.drop_left] at h4
    exact h4

/-- No descriptor key, preceded by an underscore, is a suffix of another
descriptor key; this makes `tid ++ "_" ++ key` injective over the table. -/
theorem key_not_suffix :
    ∀ k1 ∈ SENSOR_TYPES.map (fun d => d.key),
      ∀ k2 ∈ SENSOR_TYPES.map (fun d => d.key),
        ¬ ('_' :: k1.data) <:+ k2.data := by decide

/-- Distinct positions of `SENSOR_TYPES` carry distinct keys. -/
theorem keys_index_inj :
    ∀ (i1 i2 : Fin SENSOR_TYPES.length),
      (SENSOR_TYPES.get i1).key = (SENSOR_TYPES.get i2).key → i1 = i2 := by
  decide

/-- Injectivity of the unique-id format over the table's keys. -/
theorem uid_inj (t1 t2 k1 k2 : String)
    (hk1 : k1 ∈ SENSOR_TYPES.map (fun d => d.key))
    (hk2 : k2 ∈ SENSOR_TYPES.map (fun d => d.key))
    (h : t1 ++ "_" ++ k1 = t2 ++ "_" ++ k2) : t1 = t2 ∧ k1 = k2 := by
  have hd : (t1.data ++ ['_']) ++ k1.data = (t2.data ++ ['_']) ++ k2.data :=
    congrArg String.data h
  rw [List.append_assoc, List.append_assoc, List.singleton_append,
    List.singleton_append] at hd
  have hkk : k1 = k2 := by
    rcases suffix_total_of_append_eq _ _ _ _ hd with hs | hs
    · rcases List.suffix_cons_iff.1 hs with heq | hs2
      · injection heq with h1 h2
        exact string_data_inj h2
      · exact absurd hs2 (key_not_suffix k1 hk1 k2 hk2)
    · rcases List.suffix_cons_iff.1 hs with heq | hs2
      · injection heq with h1 h2
        exact string_data_inj h2.symm
      · exact absurd hs2 (key_not_suffix k2 hk2 k1 hk1)
  subst hkk
  refine ⟨?_, rfl⟩
  apply string_data_inj
  exact List.append_cancel_right hd

/-- Claim C3: each entity's unique id is the trackable id, an underscore and
the description key, and over the whole setup output unique ids are pairwise
distinct whenever the trackable ids are pairwise distinct. -/
theorem unique_id_spec :
    (∀ item d s, TractiveSensor.init item d = some s →
      ∃ tid, dictGet item.trackable "_id" = some tid ∧
        s.attr_unique_id = tid ++ "_" ++ d.key) ∧
    ∀ (trackables : List Trackables) (es : List TractiveSensor),
      async_setup_entry trackables = some es →
      (∀ (j1 j2 : Nat) (hj1 : j1 < trackables.length)
          (hj2 : j2 < trackables.length),
        dictGet (trackables.get ⟨j1, hj1⟩).trackable "_id" =
          dictGet (trackables.get ⟨j2, hj2⟩).trackable "_id" → j1 = j2) →
      ∀ (k1 k2 : Nat) (hk1 : k1 < es.length) (hk2 : k2 < es.length),
        k1 ≠ k2 →
        (es.get ⟨k1, hk1⟩).attr_unique_id ≠
          (es.get ⟨k2, hk2⟩).attr_unique_id := by
  constructor
  · intro item d s h
    obtain ⟨sid, tid, hsid, htid, rfl⟩ := (init_eq_some _ _ _).1 h
    exact ⟨tid, htid, rfl⟩
  · intro trackables es hes hdist k1 k2 hk1 hk2 hne heq
    have hlen : es.length = SENSOR_TYPES.length * trackables.length := by
      have h2 := hes
      unfold async_setup_entry at h2
      rw [optionMapList_length _ _ _ h2, pair_product_length]
    have hM : 0 < trackables.length := by
      by_contra h0
      have h1 : trackables.length = 0 := by omega
      rw [h1, Nat.mul_zero] at hlen
      omega
    have hform : ∀ (k : Nat) (hk : k < es.length),
        ∃ (i j : Nat) (hi : i < SENSOR_TYPES.length)
          (hj : j < trackables.length) (tid : String),
          k = i * trackables.length + j ∧
          dictGet (trackables.get ⟨j, hj⟩).trackable "_id" = some tid ∧
          (es.get ⟨k, hk⟩).attr_unique_id =
            tid ++ "_" ++ (SENSOR_TYPES.get ⟨i, hi⟩).key := by
      intro k hk
      have hkN : k < SENSOR_TYPES.length * trackables.length := hlen ▸ hk
      have hi : k / trackables.length < SENSOR_TYPES.length := by
        apply Nat.div_lt_of_lt_mul
        rw [Nat.mul_comm]
        exact hkN
      have hj : k % trackables.length < trackables.length :=
        Nat.mod_lt _ hM
      have hkeq : k = k / trackables.length * trackables.length +
          k % trackables.length := by
        rw [Nat.mul_comm]
        exact (Nat.div_add_mod k trackables.length).symm
      have hget := setup_getElem trackables es hes _ _ hi hj
      rw [← hkeq] at hget
      rw [List.getElem?_eq_getElem hk] at hget
      obtain ⟨sid, tid, hsid, htid, hse⟩ := (init_eq_some _ _ _).1 hget.symm
      refine ⟨k / trackables.length, k % trackables.length, hi, hj, tid,
        hkeq, htid, ?_⟩
      rw [List.get_eq_getElem]
      rw [hse]
    obtain ⟨i1, j1, hi1, hj1, tid1, hk1eq, htid1, huid1⟩ := hform k1 hk1
    obtain ⟨i2, j2, hi2, hj2, tid2, hk2eq, htid2, huid2⟩ := hform k2 hk2
    rw [huid1, huid2] at heq
    have hmem1 : (SENSOR_TYPES.get ⟨i1, hi1⟩).key ∈
        SENSOR_TYPES.map (fun d => d.key) :=
      List.mem_map_of_mem _ (List.get_mem _ _ _)
    have hmem2 : (SENSOR_TYPES.get ⟨i2, hi2⟩).key ∈
        SENSOR_TYPES.map (fun d => d.key) :=
      List.mem_map_of_mem _ (List.get_mem _ _ _)
    obtain ⟨hteq, hkk⟩ := uid_inj _ _ _ _ hmem1 hmem2 heq
    have hj12 : j1 = j2 :=
      hdist j1 j2 hj1 hj2 (by rw [htid1, htid2, hteq])
    have hi12 : i1 = i2 := by
      have h5 := keys_index_inj ⟨i1, hi1⟩ ⟨i2, hi2⟩ hkk
      exact congrArg Fin.val h5
    exact hne (by rw [hk1eq, hk2eq, hi12, hj12])

/-- Witness for C3: with one trackable, the battery and tracker-state
entities have distinct unique ids. -/
theorem unique_id_spec_witness :
    (((async_setup_entry [demoItem]).getD []).get
        ⟨0, by decide⟩).attr_unique_id ≠
      (((async_setup_entry [demoItem]).getD []).get
        ⟨1, by decide⟩).attr_unique_id :=
  unique_id_spec.2 [demoItem] ((async_setup_entry [demoItem]).getD []) rfl
    (by
      intro j1 j2 hj1 hj2 hdg
      simp only [List.length_singleton] at hj1 hj2
      omega)
    0 1 (by decide) (by decide) (by decide)
